import Mathlib

/-!
Verification of the AIgent browser-agent core against its specification.

The Python source is shallowly embedded: each Lean definition mirrors one
Python function (names kept where Lean allows), with Python strings as
`String` / `List Char`, dictionaries as association lists, and floats that
are exactly representable as `ℚ`.
-/

/-! ## Python string primitives

`pyLower`/`pyUpper` model `str.lower()`/`str.upper()` character-wise on the
ASCII and Cyrillic ranges (the only scripts appearing in the repository's
keyword tables).  `pyIn` models the Python `in` operator on strings
(contiguous-substring containment). -/

def pyLowerChar (c : Char) : Char :=
  if 'A' ≤ c ∧ c ≤ 'Z' then Char.ofNat (c.toNat + 32)
  else if 0x410 ≤ c.toNat ∧ c.toNat ≤ 0x42F then Char.ofNat (c.toNat + 0x20)
  else if c.toNat = 0x401 then Char.ofNat 0x451
  else c

def pyUpperChar (c : Char) : Char :=
  if 'a' ≤ c ∧ c ≤ 'z' then Char.ofNat (c.toNat - 32)
  else if 0x430 ≤ c.toNat ∧ c.toNat ≤ 0x44F then Char.ofNat (c.toNat - 0x20)
  else if c.toNat = 0x451 then Char.ofNat 0x401
  else c

def pyLowerStr (s : String) : String := ⟨s.data.map pyLowerChar⟩

def pyUpperStr (s : String) : String := ⟨s.data.map pyUpperChar⟩

/-- Contiguous-substring test on character lists (Python `needle in hay`). -/
def isSubstrL (needle hay : List Char) : Bool :=
  hay.tails.any (fun t => needle.isPrefixOf t)

/-- Python `needle in hay` for strings. -/
def pyIn (needle hay : String) : Bool := isSubstrL needle.data hay.data

def pyIsSpace (c : Char) : Bool :=
  c = ' ' ∨ c = '\t' ∨ c = '\n' ∨ c = '\r' ∨ c = '\x0b' ∨ c = '\x0c'

/-- Python `str.strip()`. -/
def pyStrip (s : String) : String :=
  ⟨((s.data.dropWhile pyIsSpace).reverse.dropWhile pyIsSpace).reverse⟩

/-- The suffix of `s` after the first occurrence of (non-empty) `m`,
`none` when `m` does not occur.  Helper for Python `s.split(m, 1)`. -/
def afterFirst? (m : List Char) : List Char → Option (List Char)
  | [] => if m.isPrefixOf ([] : List Char) then some [] else none
  | c :: t =>
    if m.isPrefixOf (c :: t) then some ((c :: t).drop m.length)
    else afterFirst? m t

/-- Python `s.split(m, 1)[-1]`: the text after the first occurrence of the
marker, or the whole string when the marker is absent. -/
def pySplit1Last (s m : String) : String :=
  match afterFirst? m.data s.data with
  | some r => ⟨r⟩
  | none => s

def pyIsDigit (c : Char) : Bool := '0' ≤ c ∧ c ≤ '9'

def pyIsAlnum (c : Char) : Bool :=
  pyIsDigit c ∨ ('a' ≤ c ∧ c ≤ 'z') ∨ ('A' ≤ c ∧ c ≤ 'Z') ∨
    (0x410 ≤ c.toNat ∧ c.toNat ≤ 0x44F) ∨ c.toNat = 0x401 ∨ c.toNat = 0x451

/-! ## src/agent/policies.py — Risk Classifier -/

namespace Policies

inductive ActionRisk where
  | SAFE
  | MODERATE
  | DESTRUCTIVE
deriving DecidableEq, Repr

structure ActionClassification where
  risk : ActionRisk
  reason : String
  requires_confirmation : Bool
deriving DecidableEq, Repr

/-- `DESTRUCTIVE_KEYWORDS` from policies.py (a Python set; listed in source
order — only the matched keyword's identity can depend on iteration order,
never whether some keyword matches). -/
def DESTRUCTIVE_KEYWORDS : List String :=
  ["pay", "payment", "оплат", "купить", "buy", "purchase", "checkout",
   "order", "заказ", "подтвердить заказ", "confirm order", "place order",
   "оформить", "proceed to payment",
   "delete", "удалить", "remove", "убрать", "clear", "очистить",
   "trash", "корзина", "spam", "спам",
   "send", "отправить", "submit", "опубликовать", "publish", "post",
   "unsubscribe", "отписаться", "cancel subscription", "отменить подписку",
   "logout", "выйти", "sign out"]

def SENSITIVE_INPUT_KEYWORDS : List String :=
  ["card", "карт", "cvv", "cvc", "credit", "debit",
   "password", "пароль", "pin", "пин",
   "ssn", "social security"]

def PAYMENT_URL_PATTERNS : List String :=
  ["checkout", "payment", "pay", "order", "cart", "basket", "корзина"]

/-- The tool argument dictionary, restricted to the keys the classifier
and the error handler's key derivation read (`selector`, `text`, `keys`,
`url`); a missing key reads as `""`. -/
structure Args where
  selector : String := ""
  text : String := ""
  keys : String := ""
  url : String := ""
deriving DecidableEq, Repr

/-- `SecurityPolicy._classify_click`. -/
def classify_click (args : Args) (page_url : String) : ActionClassification :=
  let selector := pyLowerStr args.selector
  match DESTRUCTIVE_KEYWORDS.find? (fun kw => pyIn kw selector) with
  | some kw =>
    { risk := .DESTRUCTIVE,
      reason := "Click on element containing '" ++ kw ++ "'",
      requires_confirmation := true }
  | none =>
    let url_lower := pyLowerStr page_url
    let risky : List String := ["submit", "confirm", "оформить", "заказ", "order"]
    if PAYMENT_URL_PATTERNS.any (fun p => pyIn p url_lower) ∧
        risky.any (fun kw => pyIn kw selector) then
      { risk := .DESTRUCTIVE,
        reason := "Submit/confirm action on payment-related page",
        requires_confirmation := true }
    else
      { risk := .SAFE, reason := "Regular click action",
        requires_confirmation := false }

/-- `SecurityPolicy._classify_type`. -/
def classify_type (args : Args) : ActionClassification :=
  let selector := pyLowerStr args.selector
  match SENSITIVE_INPUT_KEYWORDS.find? (fun kw => pyIn kw selector) with
  | some kw =>
    { risk := .DESTRUCTIVE,
      reason := "Typing into sensitive field containing '" ++ kw ++ "'",
      requires_confirmation := true }
  | none =>
    if args.text.data.any pyIsDigit ∧
        13 ≤ (args.text.data.filter pyIsDigit).length then
      { risk := .DESTRUCTIVE,
        reason := "Text appears to be payment card number",
        requires_confirmation := true }
    else
      { risk := .SAFE, reason := "Regular text input",
        requires_confirmation := false }

/-- `SecurityPolicy._classify_press`. -/
def classify_press (args : Args) (page_url : String) : ActionClassification :=
  let keys := pyLowerStr args.keys
  if pyIn "enter" keys ∧
      PAYMENT_URL_PATTERNS.any (fun p => pyIn p (pyLowerStr page_url)) then
    { risk := .MODERATE, reason := "Enter key on payment-related page",
      requires_confirmation := true }
  else
    { risk := .SAFE, reason := "Regular key press",
      requires_confirmation := false }

/-- `SecurityPolicy.classify_action`. -/
def classify_action (tool_name : String) (args : Args)
    (page_url : String) (_page_text : String) : ActionClassification :=
  if tool_name ∈ ["navigate_to_url", "get_current_url", "take_screenshot",
      "wait", "scroll"] then
    { risk := .SAFE, reason := "Read-only or navigation action",
      requires_confirmation := false }
  else if tool_name ∈ ["query_dom", "close_popups", "hover", "back"] then
    { risk := .SAFE, reason := "Non-modifying action",
      requires_confirmation := false }
  else if tool_name = "click" then classify_click args page_url
  else if tool_name = "type_text" then classify_type args
  else if tool_name = "press" then classify_press args page_url
  else
    { risk := .MODERATE, reason := "Unknown action type",
      requires_confirmation := false }

end Policies

/-! ## src/agent/errors.py — Recovery Policy and retry tracking -/

namespace Errors

inductive RecoveryStrategy where
  | RETRY
  | ALTERNATIVE
  | SCROLL
  | WAIT
  | CLOSE_POPUP
  | GO_BACK
  | GIVE_UP
deriving DecidableEq, Repr

/-- Tool-argument dictionaries appearing in recovery actions:
`{"seconds": q}`, `{"amount": n}` or `{}` (floats 2.0/1.5/3.0 are exactly
representable, embedded as `ℚ`). -/
inductive RecToolArgs where
  | seconds (q : ℚ)
  | amount (n : ℤ)
  | empty
deriving DecidableEq, Repr

structure ErrorContext where
  error_type : String
  error_message : String
  tool_name : String
  retry_count : ℕ
deriving Repr

structure RecoveryAction where
  strategy : RecoveryStrategy
  description : String
  tool_name : Option String := none
  tool_args : Option RecToolArgs := none
deriving DecidableEq, Repr

def not_found_keywords : List String :=
  ["not found", "no element", "timeout", "waiting for selector"]

def obscured_keywords : List String :=
  ["not visible", "intercepted", "obscured", "covered"]

def navigation_keywords : List String := ["navigation", "net::", "err_"]

/-- `ErrorHandler._handle_element_not_found`. -/
def handle_element_not_found (context : ErrorContext) : RecoveryAction :=
  if context.retry_count = 0 then
    { strategy := .WAIT, description := "Wait for element to appear",
      tool_name := some "wait", tool_args := some (.seconds 2) }
  else if context.retry_count = 1 then
    { strategy := .SCROLL, description := "Scroll down to find element",
      tool_name := some "scroll", tool_args := some (.amount 500) }
  else if context.retry_count = 2 then
    { strategy := .SCROLL, description := "Scroll up to find element",
      tool_name := some "scroll", tool_args := some (.amount (-500)) }
  else
    { strategy := .ALTERNATIVE,
      description := "Element not found - try query_dom with different query" }

/-- `ErrorHandler._handle_element_obscured`. -/
def handle_element_obscured (context : ErrorContext) : RecoveryAction :=
  if context.retry_count = 0 then
    { strategy := .CLOSE_POPUP, description := "Close popups that may be blocking",
      tool_name := some "close_popups", tool_args := some .empty }
  else if context.retry_count = 1 then
    { strategy := .SCROLL, description := "Scroll to better position element",
      tool_name := some "scroll", tool_args := some (.amount (-200)) }
  else if context.retry_count = 2 then
    { strategy := .WAIT, description := "Wait for animations/overlays",
      tool_name := some "wait", tool_args := some (.seconds (3/2)) }
  else
    { strategy := .ALTERNATIVE,
      description := "Element obscured - try alternative selector" }

/-- `ErrorHandler._handle_navigation_error`. -/
def handle_navigation_error (context : ErrorContext) : RecoveryAction :=
  if context.retry_count < 2 then
    { strategy := .WAIT, description := "Wait and retry navigation",
      tool_name := some "wait", tool_args := some (.seconds 3) }
  else
    { strategy := .GIVE_UP, description := "Navigation failed - network issue" }

/-- `ErrorHandler.get_recovery_strategy`; `maxRetries` is `config.MAX_RETRIES`
(environment-configured, default 3). -/
def get_recovery_strategy (maxRetries : ℕ) (context : ErrorContext) :
    RecoveryAction :=
  let error_lower := pyLowerStr context.error_message
  if not_found_keywords.any (fun kw => pyIn kw error_lower) then
    handle_element_not_found context
  else if obscured_keywords.any (fun kw => pyIn kw error_lower) then
    handle_element_obscured context
  else if navigation_keywords.any (fun kw => pyIn kw error_lower) then
    handle_navigation_error context
  else if context.retry_count < maxRetries then
    { strategy := .WAIT, description := "Wait and retry",
      tool_name := some "wait", tool_args := some (.seconds 2) }
  else
    { strategy := .GIVE_UP,
      description := "Failed after " ++ toString context.retry_count ++
        " attempts: " ++ context.error_message }

/-- The `ErrorHandler._retry_counts` dictionary, as an association list
(at most one binding per key). -/
abbrev RetryCounts := List (String × ℕ)

def RetryCounts.lookup (s : RetryCounts) (key : String) : Option ℕ :=
  List.lookup key s

/-- Python `dict.pop(key, None)`: drop the binding. -/
def RetryCounts.erase (s : RetryCounts) (key : String) : RetryCounts :=
  List.filter (fun p => ¬(p.1 = key)) s

/-- Python `dict[key] = n`: replace or append the binding. -/
def RetryCounts.insert (s : RetryCounts) (key : String) (n : ℕ) : RetryCounts :=
  if (List.lookup key s).isSome then
    List.map (fun p => if p.1 = key then (key, n) else p) s
  else s ++ [(key, n)]

/-- `ErrorHandler.track_action`: returns the updated counters and the
reported retry count. -/
def track_action (s : RetryCounts) (action_key : String) (success : Bool) :
    RetryCounts × ℕ :=
  if success then (s.erase action_key, 0)
  else
    let n := (s.lookup action_key).getD 0 + 1
    (s.insert action_key n, n)

/-- `ErrorHandler.get_action_key` for the three specially-keyed tools
(other tools hash their argument dict; the hash is irrelevant to the
claims and left abstract via the fallback branch's own string). -/
def get_action_key (tool_name : String) (selector url argsRepr : String) :
    String :=
  if tool_name = "click" then "click:" ++ selector
  else if tool_name = "type_text" then "type:" ++ selector
  else if tool_name = "navigate_to_url" then "nav:" ++ url
  else tool_name ++ ":" ++ argsRepr

end Errors

/-! ## src/browser/selectors.py — Selector Synthesizer -/

namespace Selectors

/-- Python `str.replace` for a single-character pattern. -/
def pyReplaceChar (s : List Char) (c : Char) (r : List Char) : List Char :=
  s.flatMap (fun x => if x = c then r else [x])

/-- `_escape_css_value`. -/
def escape_css_value (value : String) : String :=
  let v1 := pyReplaceChar value.data '\\' ['\\', '\\']
  let v2 := pyReplaceChar v1 '"' ['\\', '"']
  let v3 := pyReplaceChar v2 '\n' [' ']
  ⟨v3⟩

/-- `_escape_css_id`. -/
def escape_css_id (id_value : String) : String :=
  let v :=
    match id_value.data with
    | [] => []
    | c :: rest =>
      if pyIsDigit c then '\\' :: '3' :: c :: ' ' :: rest else c :: rest
  ⟨pyReplaceChar v ':' ['\\', ':']⟩

/-- `_is_stable_id` (the float test `numeric / alphanumeric > 0.5` is exact
on these magnitudes and is embedded as `alphanumeric < 2 * numeric`). -/
def is_stable_id (id_value : String) : Bool :=
  if id_value = "" then false
  else
    let auto_patterns : List String :=
      ["react-", "ember", "vue-", ":r", ":R", "uid-", "id-", "el-"]
    if auto_patterns.any (fun p => pyIn p id_value) then false
    else
      let alphanumeric := (id_value.data.filter pyIsAlnum).length
      let numeric := (id_value.data.filter pyIsDigit).length
      if 0 < alphanumeric ∧ alphanumeric < 2 * numeric then false
      else true

def pyTake (n : ℕ) (s : String) : String := ⟨s.data.take n⟩

/-- One element-attribute bag, restricted to the keys
`generate_unique_selector` reads.  Keys whose absence and empty value are
indistinguishable to the function are plain strings defaulting to `""`;
`fallback_selector` is an `Option` because its absence reads as `"body"`. -/
structure ElementInfo where
  attributes : List (String × String) := []
  id : String := ""
  ariaLabel : String := ""
  accessible_name : String := ""
  role : String := ""
  placeholder : String := ""
  cssPath : String := ""
  css_path : String := ""
  tag : String := ""
  text : String := ""
  name : String := ""
  xpath : String := ""
  bbox : Option (Option ℤ × Option ℤ) := none
  fallback_selector : Option String := none
deriving Repr

/-- The `for attr in stable_attrs` loop at the top of
`generate_unique_selector`. -/
def findStableAttr (attrs : List (String × String)) :
    List String → Option String
  | [] => none
  | a :: rest =>
    match List.lookup a attrs with
    | some value =>
      if value ≠ "" ∧ pyStrip value ≠ "" then
        some ("[" ++ a ++ "=\"" ++ escape_css_value (pyStrip value) ++ "\"]")
      else findStableAttr attrs rest
    | none => findStableAttr attrs rest

/-- `generate_unique_selector`. -/
def generate_unique_selector (e : ElementInfo) : String :=
  match findStableAttr e.attributes
      ["data-testid", "data-qa", "data-test", "aria-label", "name"] with
  | some s => s
  | none =>
  if e.id ≠ "" ∧ is_stable_id e.id then "#" ++ escape_css_id e.id
  else if e.ariaLabel ≠ "" ∧ pyStrip e.ariaLabel ≠ "" then
    "[aria-label=\"" ++ escape_css_value (pyTake 50 (pyStrip e.ariaLabel)) ++ "\"]"
  else
    -- Python `or`: first operand when truthy, else the second
    let nm := if e.ariaLabel ≠ "" then e.ariaLabel else e.accessible_name
    if e.role ≠ "" ∧ nm ≠ "" ∧ pyStrip nm ≠ "" then
      "[role=\"" ++ e.role ++ "\"][aria-label=\"" ++
        escape_css_value (pyTake 50 (pyStrip nm)) ++ "\"]"
    else if e.placeholder ≠ "" ∧ pyStrip e.placeholder ≠ "" then
      "[placeholder=\"" ++ escape_css_value (pyTake 50 (pyStrip e.placeholder)) ++ "\"]"
    else
      let css_path := if e.cssPath ≠ "" then e.cssPath else e.css_path
      if css_path ≠ "" ∧ pyStrip css_path ≠ "" then pyStrip css_path
      else
        let tag := pyLowerStr e.tag
        if tag ≠ "" ∧ e.text ≠ "" ∧ pyStrip e.text ≠ "" ∧
            pyTake 40 (pyStrip e.text) ≠ "" then
          tag ++ ":has-text(\"" ++ escape_css_value (pyTake 40 (pyStrip e.text)) ++ "\")"
        else if tag = "input" then
          "input[type=\"" ++ ((List.lookup "type" e.attributes).getD "text") ++ "\"]"
        else if e.name ≠ "" ∧ pyStrip e.name ≠ "" then
          "[name=\"" ++ escape_css_value (pyStrip e.name) ++ "\"]"
        else if tag ≠ "" then tag
        else if e.xpath ≠ "" then "xpath=" ++ e.xpath
        else
          match e.bbox with
          | some (some x, some y) =>
            "POSITION_FALLBACK:(" ++ toString x ++ "," ++ toString y ++ ")"
          | _ =>
            match e.fallback_selector with
            | some s => s
            | none => "body"

/-- A conforming CSS attribute-string parser's unescaping step: a
backslash takes the following character literally. -/
def unescapeCss : List Char → List Char
  | [] => []
  | '\\' :: c :: rest => c :: unescapeCss rest
  | c :: rest => c :: unescapeCss rest

/-- Character-wise form of `escape_css_value` (proved equal below). -/
def escChar (c : Char) : List Char :=
  if c = '\\' then ['\\', '\\']
  else if c = '"' then ['\\', '"']
  else if c = '\n' then [' ']
  else [c]

end Selectors

/-! ## src/browser/controller.py — DOM Candidate Engine scoring

The scoring runs inside `query_interactive_elements`'s in-page JavaScript
(controller.py lines 276–300).  `innerText` below is the JS local of the
same name, i.e. the element's `innerText` already trimmed and capped at
200 characters by the extraction code just above the scoring. -/

namespace Controller

structure ElementFields where
  innerText : String := ""
  ariaLabel : String := ""
  placeholder : String := ""
  title : String := ""
  name : String := ""
  value : String := ""
  alt : String := ""
deriving Repr

def translitMap : List (String × String) :=
  [("milka", "милка"), ("милка", "milka"), ("oreo", "орео"),
   ("snickers", "сникерс"), ("mars", "марс"), ("twix", "твикс"),
   ("bounty", "баунти"), ("kitkat", "киткат"), ("nestle", "нестле")]

/-- `searchText = [innerText, ariaLabel, placeholder, title, name, value,
alt].join(' ').toLowerCase()`. -/
def searchText (el : ElementFields) : String :=
  pyLowerStr (el.innerText ++ " " ++ el.ariaLabel ++ " " ++ el.placeholder
    ++ " " ++ el.title ++ " " ++ el.name ++ " " ++ el.value ++ " " ++ el.alt)

/-- The per-candidate score computed by the in-page JS. -/
def score_element (query : String) (el : ElementFields) : ℕ :=
  let queryLower := pyLowerStr query
  let queryAlt := (List.lookup queryLower translitMap).getD ""
  if queryLower ≠ "" then
    let matchesQuery := pyIn queryLower (searchText el)
    let matchesAlt := queryAlt ≠ "" ∧ pyIn queryAlt (searchText el)
    if matchesQuery ∨ matchesAlt then
      let textLower := pyLowerStr el.innerText
      let ariaLower := pyLowerStr el.ariaLabel
      if textLower = queryLower ∨ ariaLower = queryLower ∨
          textLower = queryAlt ∨ ariaLower = queryAlt then 2
      else 1
    else 0
  else 1

/-- `if (score === 0 && queryLower) continue;` — whether the candidate
survives into the result set. -/
def kept (query : String) (el : ElementFields) : Bool :=
  ¬(score_element query el = 0 ∧ pyLowerStr query ≠ "")

/-- Split a character list at spaces. -/
def splitOnSpace : List Char → List (List Char)
  | [] => [[]]
  | c :: t =>
    let r := splitOnSpace t
    if c = ' ' then [] :: r else (c :: r.headI) :: r.tail

/-- Count of intent words also present in the candidate's combined text
(the spec's "partial word overlap" measure, stated from the spec for the
comparison in C7). -/
def wordOverlap (query : String) (el : ElementFields) : ℕ :=
  ((splitOnSpace (pyLowerStr query).data).filter
    (fun w => !w.isEmpty &&
      (splitOnSpace (searchText el).data).contains w)).length

end Controller

/-! ## src/llm/{base,anthropic_provider,openai_provider}.py — providers -/

namespace Provider

/-- The fragment of Python values flowing through tool results. -/
inductive PyVal where
  | str (s : String)
  | bool (b : Bool)
  | dict (l : List (String × PyVal))
deriving Repr

/-- `json.dumps` string escaping (backslash, quote, newline — the cases
arising in this development). -/
def jsonEscape (s : String) : String :=
  let v1 := Selectors.pyReplaceChar s.data '\\' ['\\', '\\']
  let v2 := Selectors.pyReplaceChar v1 '"' ['\\', '"']
  let v3 := Selectors.pyReplaceChar v2 '\n' ['\\', 'n']
  ⟨v3⟩

mutual

/-- `json.dumps` on the embedded value fragment. -/
def jsonDumps : PyVal → String
  | .str s => "\"" ++ jsonEscape s ++ "\""
  | .bool b => if b then "true" else "false"
  | .dict l => "\x7b" ++ jsonDumpsPairs l ++ "\x7d"

def jsonDumpsPairs : List (String × PyVal) → String
  | [] => ""
  | [(k, v)] => "\"" ++ jsonEscape k ++ "\": " ++ jsonDumps v
  | (k, v) :: rest =>
    "\"" ++ jsonEscape k ++ "\": " ++ jsonDumps v ++ ", " ++
      jsonDumpsPairs rest

end

/-- A conversation message, as the Python dict the providers build. -/
abbrev Msg := List (String × PyVal)

def dictGet (d : Msg) (k : String) : Option PyVal := List.lookup k d

/-- Python truthiness of `d.get(k)`. -/
def truthy : Option PyVal → Bool
  | none => false
  | some (.str s) => s ≠ ""
  | some (.bool b) => b
  | some (.dict []) => false
  | some (.dict (_ :: _)) => true

inductive ProviderKind where
  | anthropic
  | openai
deriving DecidableEq, Repr

/-- `AnthropicProvider.format_tool_result` / `OpenAIProvider.format_tool_result`. -/
def format_tool_result (kind : ProviderKind) (tool_call_id : String)
    (result : PyVal) (is_error : Bool) : Msg :=
  let content : String :=
    match result with
    | .str s => s
    | r => jsonDumps r
  match kind with
  | .anthropic =>
    [("type", .str "tool_result"), ("tool_use_id", .str tool_call_id),
     ("content", .str content), ("is_error", .bool is_error)]
  | .openai =>
    [("role", .str "tool"), ("tool_call_id", .str tool_call_id),
     ("content", .str content)]

end Provider

/-! ## src/agent/orchestrator.py — Interaction Loop

Collaborator effects are passed in explicitly: the provider format
(`kind`), the user's confirmation decision (`confirm`), the tool registry
(`known`), tool execution (`run` — `Except.error` models a raised
exception), and the per-iteration page observation (`urls`, `pageTexts`).
The browser's `final_url` field of `ExecutionResult` is
environment-supplied and irrelevant to every claim; it is omitted. -/

namespace Orchestrator

open Provider Errors Policies

inductive AgentStatus where
  | RUNNING
  | DONE
  | NEED_USER_INPUT
  | FAILED
  | CANCELLED
deriving DecidableEq, Repr

structure ExecutionResult where
  status : AgentStatus
  summary : String
  steps_taken : ℕ
deriving DecidableEq, Repr

structure ToolCall where
  id : String
  name : String
  arguments : Args
deriving DecidableEq, Repr

structure LLMResponse where
  content : Option String
  tool_calls : List ToolCall
deriving DecidableEq, Repr

/-- The terminal-marker scan at the top of `_process_response`
(orchestrator.py lines 191–227); `memorySteps` is `len(self.memory.steps)`
at that moment.  `none` and `""` are both falsy for `if response.content:`. -/
def process_text (content : Option String) (memorySteps : ℕ) :
    Option ExecutionResult :=
  match content with
  | none => none
  | some content =>
    if content = "" then none
    else
      let content_upper := pyUpperStr content
      if pyIn "DONE:" content_upper then
        markerResult content "DONE:" .DONE memorySteps
      else if pyIn "NEED_USER_INPUT:" content_upper then
        markerResult content "NEED_USER_INPUT:" .NEED_USER_INPUT memorySteps
      else if pyIn "FAILED:" content_upper then
        markerResult content "FAILED:" .FAILED memorySteps
      else none
where
  markerResult (content marker : String) (st : AgentStatus) (k : ℕ) :
      Option ExecutionResult :=
    some { status := st, summary := pyStrip (pySplit1Last content marker),
           steps_taken := k }

/-- `Orchestrator._execute_tool`.  Returns the formatted tool-result
message, whether control reached the actual tool invocation
(`tool_func(**tool_args)`), and the updated retry counters.  A failing
recovery tool's own failure is swallowed by the source (bare `except:
pass`) and has no observable effect here. -/
def execute_tool (kind : ProviderKind) (confirm : Bool)
    (known : String → Bool) (run : String → Args → Except String PyVal)
    (maxRetries : ℕ) (pageText : String) (state : RetryCounts)
    (current_url : String) (tc : ToolCall) : Msg × Bool × RetryCounts :=
  let classification :=
    classify_action tc.name tc.arguments current_url pageText
  if classification.requires_confirmation ∧ ¬confirm then
    (format_tool_result kind tc.id
      (.dict [("error", .str "Action cancelled by user"),
              ("blocked", .bool true)]) true,
     false, state)
  else if ¬known tc.name then
    (format_tool_result kind tc.id
      (.dict [("error", .str ("Unknown tool: " ++ tc.name))]) true,
     false, state)
  else
    let action_key :=
      get_action_key tc.name tc.arguments.selector tc.arguments.url
        (reprStr tc.arguments)
    match run tc.name tc.arguments with
    | .ok result =>
      let state' := (track_action state action_key true).1
      (format_tool_result kind tc.id result false, true, state')
    | .error error_msg =>
      let tracked := track_action state action_key false
      let context : ErrorContext :=
        { error_type := "Exception", error_message := error_msg,
          tool_name := tc.name, retry_count := tracked.2 }
      let recovery := get_recovery_strategy maxRetries context
      (format_tool_result kind tc.id
        (.dict [("error", .str error_msg),
                ("recovery_attempted", .str recovery.description)]) true,
       true, tracked.1)

/-- The `for tc in response.tool_calls` loop of `_process_response`:
collects each formatted result (paired with whether its tool actually ran)
and stops with CANCELLED when `result.get("blocked")` is truthy. -/
def run_tool_calls (kind : ProviderKind) (confirm : Bool)
    (known : String → Bool) (run : String → Args → Except String PyVal)
    (maxRetries : ℕ) (pageText : String) (memorySteps : ℕ)
    (current_url : String) :
    RetryCounts → List ToolCall →
      Option ExecutionResult × List (Msg × Bool) × RetryCounts
  | state, [] => (none, [], state)
  | state, tc :: rest =>
    let r := execute_tool kind confirm known run maxRetries pageText state
      current_url tc
    if truthy (dictGet r.1 "blocked") then
      (some { status := .CANCELLED, summary := "User cancelled action",
              steps_taken := memorySteps },
       [(r.1, r.2.1)], r.2.2)
    else
      let next := run_tool_calls kind confirm known run maxRetries pageText
        memorySteps current_url r.2.2 rest
      (next.1, (r.1, r.2.1) :: next.2.1, next.2.2)

/-- `Orchestrator._process_response`: the terminal-marker scan followed by
the tool-call loop; `none` in the first component means "continue". -/
def process_response (kind : ProviderKind) (confirm : Bool)
    (known : String → Bool) (run : String → Args → Except String PyVal)
    (maxRetries : ℕ) (pageText : String) (memorySteps : ℕ)
    (state : RetryCounts) (current_url : String) (response : LLMResponse) :
    Option ExecutionResult × List (Msg × Bool) × RetryCounts :=
  match process_text response.content memorySteps with
  | some r => (some r, [], state)
  | none =>
    run_tool_calls kind confirm known run maxRetries pageText memorySteps
      current_url state response.tool_calls

/-- The `while step_count < config.MAX_STEPS` loop of
`Orchestrator.execute_task`, recursing on `maxSteps - step_count`
(`remaining`).  `responses n`, `urls n`, `pageTexts n` and `memSteps n` are
the provider response, observed URL, visible-text sample and
`len(memory.steps)` of iteration `n` (1-based); the external stop signal is
never raised and no iteration throws, matching the claims' scenarios. -/
def execute_task_go (kind : ProviderKind) (confirm : Bool)
    (known : String → Bool) (run : String → Args → Except String PyVal)
    (maxRetries : ℕ) (responses : ℕ → LLMResponse) (urls pageTexts : ℕ → String)
    (memSteps : ℕ → ℕ) (maxSteps : ℕ) :
    ℕ → ℕ → RetryCounts → ExecutionResult
  | 0, step_count, _ =>
    { status := .FAILED,
      summary := "Max steps (" ++ toString maxSteps ++
        ") reached without completion",
      steps_taken := step_count }
  | remaining + 1, step_count, state =>
    let sc := step_count + 1
    let r := process_response kind confirm known run maxRetries
      (pageTexts sc) (memSteps sc) state (urls sc) (responses sc)
    match r.1 with
    | some res => res
    | none =>
      execute_task_go kind confirm known run maxRetries responses urls
        pageTexts memSteps maxSteps remaining sc r.2.2

/-- `Orchestrator.execute_task` (loop entry: `step_count = 0`, retry
counters cleared by `self.error_handler.reset()`). -/
def execute_task (kind : ProviderKind) (confirm : Bool)
    (known : String → Bool) (run : String → Args → Except String PyVal)
    (maxRetries : ℕ) (responses : ℕ → LLMResponse)
    (urls pageTexts : ℕ → String) (memSteps : ℕ → ℕ) (maxSteps : ℕ) :
    ExecutionResult :=
  execute_task_go kind confirm known run maxRetries responses urls pageTexts
    memSteps maxSteps maxSteps 0 []

end Orchestrator

/-! ## Shared helper lemmas -/

/-- A prefix is in particular a contiguous substring. -/
lemma isSubstrL_of_isPrefixOf {n h : List Char} (hp : n.isPrefixOf h = true) :
    isSubstrL n h = true := by
  unfold isSubstrL
  rw [List.any_eq_true]
  exact ⟨h, by rw [List.mem_tails], hp⟩

/-- `format_tool_result` never produces a message with a top-level
`"blocked"` key (for either provider) — the flag set by `_execute_tool`
survives only inside the JSON-encoded `content` string. -/
lemma format_tool_result_no_blocked (kind : Provider.ProviderKind)
    (id : String) (result : Provider.PyVal) (is_error : Bool) :
    Provider.dictGet (Provider.format_tool_result kind id result is_error)
      "blocked" = none := by
  cases kind <;> cases result <;> rfl

/-- After a successful `track_action`, the key is absent from the counters. -/
lemma lookup_erase (s : Errors.RetryCounts) (key : String) :
    (Errors.RetryCounts.erase s key).lookup key = none := by
  induction s with
  | nil => rfl
  | cons p t ih =>
    obtain ⟨a, b⟩ := p
    by_cases hp : a = key
    · have h1 : Errors.RetryCounts.erase ((a, b) :: t) key
          = Errors.RetryCounts.erase t key := by
        simp [Errors.RetryCounts.erase, List.filter_cons, hp]
      rw [h1]; exact ih
    · have h1 : Errors.RetryCounts.erase ((a, b) :: t) key
          = (a, b) :: Errors.RetryCounts.erase t key := by
        simp [Errors.RetryCounts.erase, List.filter_cons, hp]
      have hba : (key == a) = false := beq_eq_false_iff_ne.mpr (Ne.symm hp)
      rw [h1]
      simp only [Errors.RetryCounts.lookup, List.lookup, hba]
      exact ih

/-! ## Claims -/

/-- C2: every read-only/navigation tool name is classified SAFE with no
confirmation, for all arguments, URL and page text; clicking
`#buy-now-pay` is classified DESTRUCTIVE with confirmation required, for
every URL and page text. -/
theorem C2_readonly_safe_buy_now_destructive :
    (∀ tool args url text,
      tool ∈ ["navigate_to_url", "get_current_url", "take_screenshot",
        "wait", "scroll", "query_dom", "close_popups", "hover", "back"] →
      (Policies.classify_action tool args url text).risk = .SAFE ∧
      (Policies.classify_action tool args url text).requires_confirmation
        = false) ∧
    (∀ url text,
      (Policies.classify_action "click" {selector := "#buy-now-pay"}
        url text).risk = .DESTRUCTIVE ∧
      (Policies.classify_action "click" {selector := "#buy-now-pay"}
        url text).requires_confirmation = true) := by
  constructor
  · intro tool args url text htool
    fin_cases htool <;> exact ⟨rfl, rfl⟩
  · intro url text
    exact ⟨rfl, rfl⟩

/-- Witness for C2 at `scroll` and a concrete click. -/
theorem C2_witness :
    ("scroll" ∈ ["navigate_to_url", "get_current_url", "take_screenshot",
        "wait", "scroll", "query_dom", "close_popups", "hover", "back"]) ∧
    (Policies.classify_action "scroll" {} "https://a.example" "p").risk
      = .SAFE ∧
    (Policies.classify_action "click" {selector := "#buy-now-pay"}
      "https://a.example" "p").risk = .DESTRUCTIVE :=
  ⟨by decide,
   (C2_readonly_safe_buy_now_destructive.1 "scroll" {} "https://a.example"
     "p" (by decide)).1,
   (C2_readonly_safe_buy_now_destructive.2 "https://a.example" "p").1⟩

/-- Risk/confirmation coupling for `_classify_click`. -/
lemma click_coupling (args : Policies.Args) (url : String) :
    ((Policies.classify_click args url).risk = .SAFE →
      (Policies.classify_click args url).requires_confirmation = false) ∧
    ((Policies.classify_click args url).risk = .DESTRUCTIVE →
      (Policies.classify_click args url).requires_confirmation = true) := by
  unfold Policies.classify_click
  cases hf : List.find? (fun kw => pyIn kw (pyLowerStr args.selector))
      Policies.DESTRUCTIVE_KEYWORDS with
  | some kw => simp [hf]
  | none => simp only [hf]; split <;> simp

/-- Risk/confirmation coupling for `_classify_type`. -/
lemma type_coupling (args : Policies.Args) :
    ((Policies.classify_type args).risk = .SAFE →
      (Policies.classify_type args).requires_confirmation = false) ∧
    ((Policies.classify_type args).risk = .DESTRUCTIVE →
      (Policies.classify_type args).requires_confirmation = true) := by
  unfold Policies.classify_type
  cases hf : List.find? (fun kw => pyIn kw (pyLowerStr args.selector))
      Policies.SENSITIVE_INPUT_KEYWORDS with
  | some kw => simp [hf]
  | none => simp only [hf]; split <;> simp

/-- Risk/confirmation coupling for `_classify_press`. -/
lemma press_coupling (args : Policies.Args) (url : String) :
    ((Policies.classify_press args url).risk = .SAFE →
      (Policies.classify_press args url).requires_confirmation = false) ∧
    ((Policies.classify_press args url).risk = .DESTRUCTIVE →
      (Policies.classify_press args url).requires_confirmation = true) := by
  unfold Policies.classify_press
  cases hc : pyIn "enter" (pyLowerStr args.keys) <;>
    cases hc2 : Policies.PAYMENT_URL_PATTERNS.any
      (fun p => pyIn p (pyLowerStr url)) <;>
    simp [hc, hc2]

/-- C10: for every input, a SAFE classification never requires
confirmation and a DESTRUCTIVE classification always does. -/
theorem C10_risk_confirmation_coupling (tool : String) (args : Policies.Args)
    (url text : String) :
    ((Policies.classify_action tool args url text).risk = .SAFE →
      (Policies.classify_action tool args url text).requires_confirmation
        = false) ∧
    ((Policies.classify_action tool args url text).risk = .DESTRUCTIVE →
      (Policies.classify_action tool args url text).requires_confirmation
        = true) := by
  unfold Policies.classify_action
  repeat' split
  all_goals first
    | exact click_coupling args url
    | exact type_coupling args
    | exact press_coupling args url
    | (constructor <;> intro h <;> simp_all)

/-- Witness for C10 at a SAFE and a DESTRUCTIVE input. -/
theorem C10_witness :
    (Policies.classify_action "wait" {} "" "").requires_confirmation
      = false ∧
    (Policies.classify_action "type_text" {selector := "#cvv"} "" ""
      ).requires_confirmation = true :=
  ⟨(C10_risk_confirmation_coupling "wait" {} "" "").1 rfl,
   (C10_risk_confirmation_coupling "type_text" {selector := "#cvv"} "" "").2
     rfl⟩

/-- C5: for every not-found-classified error message, the recovery policy
returns, at retry counts 0, 1, 2, a ~2s wait, a 500px downward scroll and
a 500px upward scroll, and from retry count 3 on the ALTERNATIVE strategy
— never GIVE_UP. -/
theorem C5_not_found_recovery (maxRetries : ℕ) (ctx : Errors.ErrorContext)
    (hnf : Errors.not_found_keywords.any
      (fun kw => pyIn kw (pyLowerStr ctx.error_message)) = true) :
    (ctx.retry_count = 0 →
      Errors.get_recovery_strategy maxRetries ctx =
        { strategy := .WAIT, description := "Wait for element to appear",
          tool_name := some "wait", tool_args := some (.seconds 2) }) ∧
    (ctx.retry_count = 1 →
      Errors.get_recovery_strategy maxRetries ctx =
        { strategy := .SCROLL, description := "Scroll down to find element",
          tool_name := some "scroll", tool_args := some (.amount 500) }) ∧
    (ctx.retry_count = 2 →
      Errors.get_recovery_strategy maxRetries ctx =
        { strategy := .SCROLL, description := "Scroll up to find element",
          tool_name := some "scroll", tool_args := some (.amount (-500)) }) ∧
    (3 ≤ ctx.retry_count →
      (Errors.get_recovery_strategy maxRetries ctx).strategy
        = .ALTERNATIVE) ∧
    (Errors.get_recovery_strategy maxRetries ctx).strategy ≠ .GIVE_UP := by
  have hmain : Errors.get_recovery_strategy maxRetries ctx =
      Errors.handle_element_not_found ctx := by
    unfold Errors.get_recovery_strategy
    simp [hnf]
  rw [hmain]
  unfold Errors.handle_element_not_found
  refine ⟨fun h0 => by simp [h0], fun h1 => by simp [h1],
    fun h2 => by simp [h2], fun h3 => ?_, ?_⟩ <;>
    rcases hr : ctx.retry_count with _ | _ | _ | n <;> simp_all

/-- Witness for C5 at the message `"Element not found"` and each of the
four retry-count regimes. -/
theorem C5_witness :
    (Errors.not_found_keywords.any (fun kw =>
      pyIn kw (pyLowerStr "Element not found")) = true) ∧
    Errors.get_recovery_strategy 3
        ⟨"E", "Element not found", "click", 0⟩ =
      { strategy := .WAIT, description := "Wait for element to appear",
        tool_name := some "wait", tool_args := some (.seconds 2) } ∧
    Errors.get_recovery_strategy 3
        ⟨"E", "Element not found", "click", 1⟩ =
      { strategy := .SCROLL, description := "Scroll down to find element",
        tool_name := some "scroll", tool_args := some (.amount 500) } ∧
    Errors.get_recovery_strategy 3
        ⟨"E", "Element not found", "click", 2⟩ =
      { strategy := .SCROLL, description := "Scroll up to find element",
        tool_name := some "scroll", tool_args := some (.amount (-500)) } ∧
    (Errors.get_recovery_strategy 3
        ⟨"E", "Element not found", "click", 7⟩).strategy = .ALTERNATIVE :=
  ⟨by decide,
   (C5_not_found_recovery 3 ⟨"E", "Element not found", "click", 0⟩
     (by decide)).1 rfl,
   (C5_not_found_recovery 3 ⟨"E", "Element not found", "click", 1⟩
     (by decide)).2.1 rfl,
   (C5_not_found_recovery 3 ⟨"E", "Element not found", "click", 2⟩
     (by decide)).2.2.1 rfl,
   (C5_not_found_recovery 3 ⟨"E", "Element not found", "click", 7⟩
     (by decide)).2.2.2.1 (by decide)⟩

/-- C6: for any key, starting from the cleared per-task counters, three
failures report 1, 2, 3; and from any counter state, a success reports 0
and resets the key, so the next failure reports 1 (not 4). -/
theorem C6_retry_reset (s : Errors.RetryCounts) (key : String) :
    (Errors.track_action [] key false).2 = 1 ∧
    (Errors.track_action (Errors.track_action [] key false).1 key false).2
      = 2 ∧
    (Errors.track_action (Errors.track_action
      (Errors.track_action [] key false).1 key false).1 key false).2 = 3 ∧
    (Errors.track_action s key true).2 = 0 ∧
    (Errors.track_action (Errors.track_action s key true).1 key false).2
      = 1 := by
  refine ⟨?_, ?_, ?_, rfl, ?_⟩
  · simp [Errors.track_action, Errors.RetryCounts.insert,
      Errors.RetryCounts.lookup, Errors.RetryCounts.erase, List.lookup]
  · simp [Errors.track_action, Errors.RetryCounts.insert,
      Errors.RetryCounts.lookup, Errors.RetryCounts.erase, List.lookup]
  · simp [Errors.track_action, Errors.RetryCounts.insert,
      Errors.RetryCounts.lookup, Errors.RetryCounts.erase, List.lookup]
  · show (Errors.track_action (Errors.RetryCounts.erase s key) key false).2
      = 1
    simp [Errors.track_action, lookup_erase]

/-- C8: the bag `{"fallback_selector": ""}` drives
`generate_unique_selector` to return the empty string, contrary to the
claim (and the function's own docstring, "NEVER returns empty string"). -/
theorem C8_empty_selector_at_fallback :
    Selectors.generate_unique_selector { fallback_selector := some "" }
      = "" ∧
    Selectors.generate_unique_selector {} = "body" := ⟨rfl, rfl⟩

/-- `_escape_css_value`'s three sequential single-character replaces act
character-wise. -/
lemma escape_css_value_data (v : String) :
    (Selectors.escape_css_value v).data = v.data.flatMap Selectors.escChar := by
  show Selectors.pyReplaceChar (Selectors.pyReplaceChar
    (Selectors.pyReplaceChar v.data '\\' ['\\', '\\']) '"' ['\\', '"'])
    '\n' [' '] = _
  induction v.data with
  | nil => rfl
  | cons c t ih =>
    simp only [Selectors.pyReplaceChar, List.flatMap_cons,
      List.flatMap_append] at ih ⊢
    rw [ih]
    by_cases h1 : c = '\\'
    · subst h1; simp [Selectors.escChar]
    · by_cases h2 : c = '"'
      · subst h2; simp [Selectors.escChar]
      · by_cases h3 : c = '\n'
        · subst h3; simp [Selectors.escChar]
        · simp [Selectors.escChar, h1, h2, h3]

/-- Unescaping steps over an ordinary (non-backslash) head character. -/
lemma unescapeCss_cons_ne (c : Char) (hc : c ≠ '\\') (l : List Char) :
    Selectors.unescapeCss (c :: l) = c :: Selectors.unescapeCss l := by
  rw [Selectors.unescapeCss.eq_def]
  split
  · simp_all
  · rename_i heq; rw [List.cons.injEq] at heq
    exact absurd heq.1 hc
  · rename_i heq; rw [List.cons.injEq] at heq
    rw [heq.1, heq.2]

/-- A conforming parser inverts the character-wise escape on
newline-free input. -/
lemma unescape_flatMap (l : List Char) (hn : '\n' ∉ l) :
    Selectors.unescapeCss (l.flatMap Selectors.escChar) = l := by
  induction l with
  | nil => rfl
  | cons c t ih =>
    have ht : '\n' ∉ t := fun hm => hn (List.mem_cons_of_mem _ hm)
    have hc : c ≠ '\n' := fun hc => hn (hc ▸ List.mem_cons_self _ _)
    rw [List.flatMap_cons]
    by_cases h1 : c = '\\'
    · subst h1
      show Selectors.unescapeCss ('\\' :: '\\' :: t.flatMap _) = _
      rw [show ∀ x, Selectors.unescapeCss ('\\' :: '\\' :: x)
        = '\\' :: Selectors.unescapeCss x from fun _ => rfl]
      rw [ih ht]
    · by_cases h2 : c = '"'
      · subst h2
        show Selectors.unescapeCss ('\\' :: '"' :: t.flatMap _) = _
        rw [show ∀ x, Selectors.unescapeCss ('\\' :: '"' :: x)
          = '"' :: Selectors.unescapeCss x from fun _ => rfl]
        rw [ih ht]
      · rw [show Selectors.escChar c = [c] by
          simp [Selectors.escChar, h1, h2, hc]]
        rw [List.singleton_append, unescapeCss_cons_ne c h1, ih ht]

/-- C9: for every attribute value containing a double quote and a
backslash and no newline, embedding through `_escape_css_value` and
unescaping by a conforming selector parser returns the original value. -/
theorem C9_escape_roundtrip (v : String) (_hq : '"' ∈ v.data)
    (_hb : '\\' ∈ v.data) (hn : '\n' ∉ v.data) :
    Selectors.unescapeCss (Selectors.escape_css_value v).data = v.data := by
  rw [escape_css_value_data]
  exact unescape_flatMap v.data hn

/-- Witness for C9 at the value `a\"b`. -/
theorem C9_witness :
    ('"' ∈ ("a\\\"b" : String).data) ∧
    ('\\' ∈ ("a\\\"b" : String).data) ∧
    ('\n' ∉ ("a\\\"b" : String).data) ∧
    Selectors.unescapeCss
      (Selectors.escape_css_value "a\\\"b").data = ("a\\\"b" : String).data :=
  ⟨by decide, by decide, by decide,
   C9_escape_roundtrip "a\\\"b" (by decide) (by decide) (by decide)⟩

lemma pyLowerStr_eq_empty_iff (s : String) : pyLowerStr s = "" ↔ s = "" := by
  obtain ⟨l⟩ := s
  simp [pyLowerStr, String.ext_iff]

/-- The combined searchable text starts with the (lowered) `innerText`. -/
lemma searchText_data (el : Controller.ElementFields) :
    (Controller.searchText el).data
      = (pyLowerStr el.innerText).data
        ++ (pyLowerStr (" " ++ el.ariaLabel ++ " " ++ el.placeholder
          ++ " " ++ el.title ++ " " ++ el.name ++ " " ++ el.value
          ++ " " ++ el.alt)).data := by
  show ((el.innerText ++ " " ++ el.ariaLabel ++ " " ++ el.placeholder
    ++ " " ++ el.title ++ " " ++ el.name ++ " " ++ el.value ++ " "
    ++ el.alt).data.map pyLowerChar) = _
  show ((el.innerText.data ++ (" " : String).data ++ el.ariaLabel.data
    ++ (" " : String).data ++ el.placeholder.data ++ (" " : String).data
    ++ el.title.data ++ (" " : String).data ++ el.name.data
    ++ (" " : String).data ++ el.value.data ++ (" " : String).data
    ++ el.alt.data).map pyLowerChar) = _
  simp [pyLowerStr, List.map_append, List.append_assoc]

/-- A candidate whose (lowered) `innerText` equals the lowered query is
matched by the containment test. -/
lemma pyIn_searchText_of_innerText (q : String)
    (el : Controller.ElementFields)
    (h : pyLowerStr el.innerText = pyLowerStr q) :
    pyIn (pyLowerStr q) (Controller.searchText el) = true := by
  unfold pyIn
  apply isSubstrL_of_isPrefixOf
  rw [List.isPrefixOf_iff_prefix, searchText_data el, ← h]
  exact List.prefix_append _ _

/-- Modelled from the spec's words for comparison in C3: a terminal marker
"matched case-insensitively as a labeled `MARKER:` prefix" of the model's
text. -/
def isTerminalMarkerPrefix (content : String) : Bool :=
  ["DONE:", "NEED_USER_INPUT:", "FAILED:"].any
    (fun m => m.data.isPrefixOf (pyUpperStr content).data)

/-- C3 counterexample: the text `"x DONE: ok"` carries no terminal marker
as a prefix, yet `_process_response` transitions to DONE on it — markers
are detected by containment, not prefix. -/
theorem C3_counterexample_containment_not_prefix :
    Orchestrator.process_text (some "x DONE: ok") 7 =
      some { status := .DONE, summary := "ok", steps_taken := 7 } ∧
    isTerminalMarkerPrefix "x DONE: ok" = false := ⟨rfl, by decide⟩

/-- C3 (amended): a non-empty text transitions to a terminal state exactly
when its uppercased form contains `DONE:`, `NEED_USER_INPUT:` or `FAILED:`
as a substring, checked in that order; the summary is the stripped text
after the first case-sensitive occurrence of the matched marker (the whole
stripped text when the marker occurs only in another case). -/
theorem C3_amended_markers (content : String) (k : ℕ) (hne : content ≠ "") :
    ((Orchestrator.process_text (some content) k).isSome =
      (pyIn "DONE:" (pyUpperStr content) ∨
       pyIn "NEED_USER_INPUT:" (pyUpperStr content) ∨
       pyIn "FAILED:" (pyUpperStr content))) ∧
    (pyIn "DONE:" (pyUpperStr content) = true →
      Orchestrator.process_text (some content) k =
        some { status := .DONE,
               summary := pyStrip (pySplit1Last content "DONE:"),
               steps_taken := k }) ∧
    (pyIn "DONE:" (pyUpperStr content) = false →
     pyIn "NEED_USER_INPUT:" (pyUpperStr content) = true →
      Orchestrator.process_text (some content) k =
        some { status := .NEED_USER_INPUT,
               summary := pyStrip (pySplit1Last content "NEED_USER_INPUT:"),
               steps_taken := k }) ∧
    (pyIn "DONE:" (pyUpperStr content) = false →
     pyIn "NEED_USER_INPUT:" (pyUpperStr content) = false →
     pyIn "FAILED:" (pyUpperStr content) = true →
      Orchestrator.process_text (some content) k =
        some { status := .FAILED,
               summary := pyStrip (pySplit1Last content "FAILED:"),
               steps_taken := k }) := by
  unfold Orchestrator.process_text Orchestrator.process_text.markerResult
  cases hd : pyIn "DONE:" (pyUpperStr content) <;>
    cases hn2 : pyIn "NEED_USER_INPUT:" (pyUpperStr content) <;>
    cases hf : pyIn "FAILED:" (pyUpperStr content) <;>
    simp [hne, hd, hn2, hf]

/-- C7 counterexample: for the intent `"add cart"`, the candidate
`"add item"` has partial word overlap (1 of 2 intent words) yet scores 0
and is excluded — exactly like the no-overlap candidate `"zzz"` — so the
claimed strict ordering `partial > none` fails. -/
theorem C7_counterexample_partial_overlap_scores_zero :
    Controller.score_element "add cart" { innerText := "add cart" } = 2 ∧
    Controller.wordOverlap "add cart" { innerText := "add item" } = 1 ∧
    Controller.wordOverlap "add cart" { innerText := "zzz" } = 0 ∧
    Controller.score_element "add cart" { innerText := "add item" } = 0 ∧
    Controller.score_element "add cart" { innerText := "zzz" } = 0 ∧
    Controller.kept "add cart" { innerText := "add item" } = false ∧
    ¬(Controller.score_element "add cart" { innerText := "add item" }
      > Controller.score_element "add cart" { innerText := "zzz" }) := by
  decide

/-- C7 (amended): for a non-empty intent without a transliteration entry,
a candidate whose text equals the intent scores 2; a candidate whose
combined text contains the intent without an exact text/label match
scores 1; a candidate whose combined text does not contain the intent —
partial word overlap or none — scores 0 and is excluded; the scores are
strictly ordered 2 > 1 > 0. -/
theorem C7_amended_scoring (q : String) (A B C : Controller.ElementFields)
    (hq : pyLowerStr q ≠ "")
    (htr : (List.lookup (pyLowerStr q) Controller.translitMap).getD "" = "")
    (hA : pyLowerStr A.innerText = pyLowerStr q)
    (hBc : pyIn (pyLowerStr q) (Controller.searchText B) = true)
    (hBt : pyLowerStr B.innerText ≠ pyLowerStr q)
    (hBa : pyLowerStr B.ariaLabel ≠ pyLowerStr q)
    (hBt0 : B.innerText ≠ "") (hBa0 : B.ariaLabel ≠ "")
    (hC : pyIn (pyLowerStr q) (Controller.searchText C) = false) :
    Controller.score_element q A = 2 ∧
    Controller.score_element q B = 1 ∧
    Controller.score_element q C = 0 ∧
    Controller.kept q C = false ∧
    Controller.score_element q A > Controller.score_element q B ∧
    Controller.score_element q B > Controller.score_element q C := by
  have hAc := pyIn_searchText_of_innerText q A hA
  have hBt' : pyLowerStr B.innerText ≠ "" :=
    fun h => hBt0 ((pyLowerStr_eq_empty_iff _).mp h)
  have hBa' : pyLowerStr B.ariaLabel ≠ "" :=
    fun h => hBa0 ((pyLowerStr_eq_empty_iff _).mp h)
  have h2 : Controller.score_element q A = 2 := by
    unfold Controller.score_element
    simp [hq, htr, hAc, hA]
  have h1 : Controller.score_element q B = 1 := by
    unfold Controller.score_element
    simp [hq, htr, hBc, hBt, hBa, hBt', hBa']
  have h0 : Controller.score_element q C = 0 := by
    unfold Controller.score_element
    simp [hq, htr, hC]
  refine ⟨h2, h1, h0, ?_, by omega, by omega⟩
  unfold Controller.kept
  simp [h0, hq]

/-- Witness for C7's amended statement at intent `"add cart"` with an
exact, a containment-only and a no-containment candidate. -/
theorem C7_amended_witness :
    Controller.score_element "add cart" { innerText := "add cart" } = 2 ∧
    Controller.score_element "add cart"
      { innerText := "you can add carts here", ariaLabel := "basket" } = 1 ∧
    Controller.score_element "add cart" { innerText := "add item" } = 0 ∧
    Controller.kept "add cart" { innerText := "add item" } = false :=
  have h := C7_amended_scoring "add cart"
    { innerText := "add cart" }
    { innerText := "you can add carts here", ariaLabel := "basket" }
    { innerText := "add item" }
    (by decide) (by decide) (by decide) (by decide) (by decide)
    (by decide) (by decide) (by decide) (by decide)
  ⟨h.1, h.2.1, h.2.2.1, h.2.2.2.1⟩

/-- The response, collaborators and state of C1's failing scenario: the
Anthropic message format, a withheld confirmation, a registry knowing
every tool, tools that succeed, and a model response carrying a
confirmation-requiring click followed by a second call. -/
def c1_scenario :
    Option Orchestrator.ExecutionResult × List (Provider.Msg × Bool)
      × Errors.RetryCounts :=
  Orchestrator.process_response .anthropic false (fun _ => true)
    (fun _ _ => .ok (.str "ok")) 3 "page" 0 [] "https://shop.example/item"
    { content := some "clicking now",
      tool_calls :=
        [⟨"t1", "click", { selector := "#buy-now-pay" }⟩,
         ⟨"t2", "wait", {}⟩] }

/-- C1: when the Risk Classifier demands confirmation and the user
withholds it, the loop does NOT transition to CANCELLED — the `blocked`
flag set by `_execute_tool` is lost inside `format_tool_result`'s message
(no top-level `"blocked"` key for either provider), so the remaining tool
call still executes and the withheld confirmation is reported with
`is_error` set. -/
theorem C1_withheld_confirmation_not_cancelled :
    (∀ kind id result is_error,
      Provider.dictGet (Provider.format_tool_result kind id result is_error)
        "blocked" = none) ∧
    (Policies.classify_action "click" { selector := "#buy-now-pay" }
      "https://shop.example/item" "page").requires_confirmation = true ∧
    c1_scenario.1 = none ∧
    c1_scenario.2.1.map Prod.snd = [false, true] ∧
    Provider.dictGet c1_scenario.2.1.headI.1 "is_error"
      = some (.bool true) :=
  ⟨format_tool_result_no_blocked, rfl, rfl, rfl, rfl⟩

/-- The tool-call loop of `_process_response` never terminates the task
when every call's tool is known, runs successfully, and the user confirms. -/
lemma run_tool_calls_all_ok (kind : Provider.ProviderKind)
    (known : String → Bool)
    (run : String → Policies.Args → Except String Provider.PyVal)
    (maxRetries : ℕ) (pageText : String) (memorySteps : ℕ)
    (current_url : String) (calls : List Orchestrator.ToolCall)
    (state : Errors.RetryCounts)
    (hknown : ∀ tc ∈ calls, known tc.name = true)
    (hok : ∀ tc ∈ calls, ∃ v, run tc.name tc.arguments = Except.ok v) :
    (Orchestrator.run_tool_calls kind true known run maxRetries pageText
      memorySteps current_url state calls).1 = none := by
  induction calls generalizing state with
  | nil => rfl
  | cons tc rest ih =>
    obtain ⟨v, hv⟩ := hok tc (List.mem_cons_self _ _)
    have hk := hknown tc (List.mem_cons_self _ _)
    have hexec : Orchestrator.execute_tool kind true known run maxRetries
        pageText state current_url tc
        = (Provider.format_tool_result kind tc.id v false, true,
           (Errors.track_action state
             (Errors.get_action_key tc.name tc.arguments.selector
               tc.arguments.url (reprStr tc.arguments)) true).1) := by
      unfold Orchestrator.execute_tool
      simp [hk, hv]
    unfold Orchestrator.run_tool_calls
    simp only [hexec, format_tool_result_no_blocked]
    simp only [Provider.truthy, Bool.false_eq_true, if_false]
    exact ih _ (fun tc' h' => hknown tc' (List.mem_cons_of_mem _ h'))
      (fun tc' h' => hok tc' (List.mem_cons_of_mem _ h'))

/-- The loop body, iterated: with no terminal markers and all tools
succeeding, every iteration continues, and exhausting `remaining`
iterations lands on the budget-exhausted FAILED result. -/
lemma execute_task_go_budget (kind : Provider.ProviderKind)
    (known : String → Bool)
    (run : String → Policies.Args → Except String Provider.PyVal)
    (maxRetries : ℕ) (responses : ℕ → Orchestrator.LLMResponse)
    (urls pageTexts : ℕ → String) (memSteps : ℕ → ℕ) (maxSteps : ℕ)
    (hmark : ∀ n k, Orchestrator.process_text (responses n).content k = none)
    (hknown : ∀ n tc, tc ∈ (responses n).tool_calls → known tc.name = true)
    (hok : ∀ n tc, tc ∈ (responses n).tool_calls →
      ∃ v, run tc.name tc.arguments = Except.ok v) :
    ∀ remaining step_count state,
      Orchestrator.execute_task_go kind true known run maxRetries responses
        urls pageTexts memSteps maxSteps remaining step_count state
      = { status := .FAILED,
          summary := "Max steps (" ++ toString maxSteps ++
            ") reached without completion",
          steps_taken := step_count + remaining } := by
  intro remaining
  induction remaining with
  | zero => intro sc st; rfl
  | succ r ih =>
    intro sc st
    have hpr : (Orchestrator.process_response kind true known run maxRetries
        (pageTexts (sc + 1)) (memSteps (sc + 1)) st (urls (sc + 1))
        (responses (sc + 1))).1 = none := by
      unfold Orchestrator.process_response
      rw [hmark]
      exact run_tool_calls_all_ok kind known run maxRetries _ _ _ _ _
        (fun tc h => hknown (sc + 1) tc h) (fun tc h => hok (sc + 1) tc h)
    unfold Orchestrator.execute_task_go
    simp only []
    rcases hsplit : Orchestrator.process_response kind true known run
        maxRetries (pageTexts (sc + 1)) (memSteps (sc + 1)) st (urls (sc + 1))
        (responses (sc + 1)) with ⟨res?, out, st'⟩
    rw [hsplit] at hpr
    simp only at hpr
    subst hpr
    rw [ih (sc + 1) st']
    have harith : sc + 1 + r = sc + (r + 1) := by omega
    rw [harith]

/-- C4: with a provider that never emits a terminal marker and tool calls
that always succeed, the loop ends FAILED with the budget-exhausted
summary after exactly `maxSteps` iterations. -/
theorem C4_budget_exhaustion (kind : Provider.ProviderKind)
    (known : String → Bool)
    (run : String → Policies.Args → Except String Provider.PyVal)
    (maxRetries : ℕ) (responses : ℕ → Orchestrator.LLMResponse)
    (urls pageTexts : ℕ → String) (memSteps : ℕ → ℕ) (maxSteps : ℕ)
    (hmark : ∀ n k, Orchestrator.process_text (responses n).content k = none)
    (hknown : ∀ n tc, tc ∈ (responses n).tool_calls → known tc.name = true)
    (hok : ∀ n tc, tc ∈ (responses n).tool_calls →
      ∃ v, run tc.name tc.arguments = Except.ok v) :
    Orchestrator.execute_task kind true known run maxRetries responses urls
      pageTexts memSteps maxSteps
    = { status := .FAILED,
        summary := "Max steps (" ++ toString maxSteps ++
          ") reached without completion",
        steps_taken := maxSteps } := by
  unfold Orchestrator.execute_task
  rw [execute_task_go_budget kind known run maxRetries responses urls
    pageTexts memSteps maxSteps hmark hknown hok maxSteps 0 []]
  simp

/-- Witness for C4: a scripted provider repeating one marker-free response
with a single succeeding `wait` call exhausts a budget of 3 at exactly 3
steps. -/
theorem C4_witness :
    Orchestrator.execute_task .anthropic true (fun _ => true)
      (fun _ _ => .ok (.str "ok")) 3
      (fun _ => { content := some "thinking",
                  tool_calls := [⟨"i", "wait", {}⟩] })
      (fun _ => "u") (fun _ => "p") (fun n => n) 3
    = { status := .FAILED,
        summary := "Max steps (3) reached without completion",
        steps_taken := 3 } := by
  have h := C4_budget_exhaustion .anthropic (fun _ => true)
    (fun _ _ => .ok (.str "ok")) 3
    (fun _ => { content := some "thinking",
                tool_calls := [⟨"i", "wait", {}⟩] })
    (fun _ => "u") (fun _ => "p") (fun n => n) 3
    (fun _ _ => rfl) (fun _ _ _ => rfl)
    (fun _ tc _ => ⟨.str "ok", rfl⟩)
  rw [h]
  decide

/-- Witness for C3's amended statement at `"DONE: yay"`. -/
theorem C3_amended_witness :
    (("DONE: yay" : String) ≠ "") ∧
    (pyIn "DONE:" (pyUpperStr "DONE: yay") = true) ∧
    Orchestrator.process_text (some "DONE: yay") 4 =
      some { status := .DONE,
             summary := pyStrip (pySplit1Last "DONE: yay" "DONE:"),
             steps_taken := 4 } ∧
    pyStrip (pySplit1Last "DONE: yay" "DONE:") = "yay" :=
  ⟨by decide, by decide,
   (C3_amended_markers "DONE: yay" 4 (by decide)).2.1 (by decide),
   by decide⟩
